import Mathlib

/-!
Verification of the Bot-Base repository (src/main.py): a shallow embedding of
its JSON-tree helpers (`replace_placeholders`, `apply_theme`) and of the pure
decision logic of its command and event handlers (`theme_command`,
`embed_command`, `welcome_command`, `on_member_join`), together with proofs of
the specification's claims about them.

JSON values are modelled by a mutual inductive (`JSON` / `JList` / `JObj`):
Python dicts become ordered association lists (insertion order is what Python
preserves and what `json.dump` writes back).  Python exceptions raised inside
code regions that the handlers wrap in `try`/`except` are modelled by `Option`:
`none` is "an exception was raised here".  External collaborators (the Discord
gateway, `json.loads`) are modelled as parameters: a parse failure of
`json.loads` is the `none` case of an `Option JSON` argument, and the guild's
role/channel registry is a pair of membership functions.
-/

mutual
inductive JSON where
  | null
  | bool (b : Bool)
  | num (n : Int)
  | str (s : String)
  | arr (elems : JList)
  | obj (fields : JObj)
inductive JList where
  | nil
  | cons (hd : JSON) (tl : JList)
inductive JObj where
  | nil
  | cons (key : String) (val : JSON) (tl : JObj)
end

/-- Python `d.get(k)` / `d[k]` on a dict: first binding of the key, if any. -/
def getKey : JObj → String → Option JSON
  | .nil, _ => none
  | .cons k' v tl, k => if k' == k then some v else getKey tl k

/-- Python `k in d` on a dict. -/
def hasKey (d : JObj) (k : String) : Bool :=
  (getKey d k).isSome

/-- Python `d[k] = v` on a dict: overwrite in place if the key is present
(keeping its position), otherwise append the new binding at the end. -/
def setKey : JObj → String → JSON → JObj
  | .nil, k, v => .cons k v .nil
  | .cons k' v' tl, k, v =>
    if k' == k then .cons k' v tl else .cons k' v' (setKey tl k v)

/-- Python truthiness of a JSON value (`bool(x)`). -/
def truthy : JSON → Bool
  | .null => false
  | .bool b => b
  | .num n => n != 0
  | .str s => s != ""
  | .arr .nil => false
  | .arr (.cons _ _) => true
  | .obj .nil => false
  | .obj (.cons _ _ _) => true

/-- Python truthiness of the result of a `.get` (where `None` is falsy). -/
def truthyOpt : Option JSON → Bool
  | none => false
  | some v => truthy v

/-- Python `lst[:n]`. -/
def jtake : Nat → JList → JList
  | 0, _ => .nil
  | _, .nil => .nil
  | n + 1, .cons e tl => .cons e (jtake n tl)

/-- View of a Lean list of dicts as a `JList` of objects. -/
def objList : List JObj → JList
  | [] => .nil
  | e :: tl => .cons (.obj e) (objList tl)

/-- The `member` argument of the handlers: the two attributes the code reads
(`member.mention`, `member.name`). -/
structure Member where
  mention : String
  name : String

/-! ## Python string primitives used by the source

`str.replace`, `str.strip('#')` and `int(_, 16)` are modelled character by
character, following Python semantics. -/

/-- One step bound per consumed character: `replaceAux old new fuel s` rewrites
every non-overlapping occurrence of `old` in `s` (scanning left to right) to
`new`, exactly as Python `s.replace(old, new)` does for nonempty `old`.  The
fuel only needs to be at least `s.length`; each step consumes at least one
character of `s` when `old` is nonempty. -/
def replaceAux (old new : List Char) : Nat → List Char → List Char
  | 0, s => s
  | _ + 1, [] => []
  | fuel + 1, c :: rest =>
    if old.isPrefixOf (c :: rest) then
      new ++ replaceAux old new fuel ((c :: rest).drop old.length)
    else
      c :: replaceAux old new fuel rest

/-- Python `s.replace(old, new)` (all occurrences; for an empty `old`, Python
inserts `new` before every character and at the end). -/
def pyReplace (s old new : String) : String :=
  match old.data with
  | [] => ⟨new.data ++ s.data.flatMap (fun c => c :: new.data)⟩
  | _ :: _ => ⟨replaceAux old.data new.data s.data.length s.data⟩

/-- Python `pat in s` on strings: does `pat` occur as a contiguous substring? -/
def containsSub (pat : List Char) : List Char → Bool
  | [] => pat.isEmpty
  | c :: rest => pat.isPrefixOf (c :: rest) || containsSub pat rest

/-- Substring test packaged for `String`s. -/
def strHas (s pat : String) : Bool :=
  containsSub pat.data s.data

/-- Python `s.strip(chars)` for a single strip character. -/
def stripChar (ch : Char) (s : String) : String :=
  ⟨((s.data.dropWhile (· == ch)).reverse.dropWhile (· == ch)).reverse⟩

/-- The source's `primary.strip('#')`: all leading and trailing hashes gone. -/
def strip_hash (s : String) : String :=
  stripChar '#' s

/-- Whitespace stripped by Python `int()` before parsing (ASCII subset). -/
def isPySpace (c : Char) : Bool :=
  c == ' ' || c == '\t' || c == '\n' || c == '\r' ||
    c == Char.ofNat 11 || c == Char.ofNat 12

/-- Value of one hexadecimal digit. -/
def hexVal (c : Char) : Option Nat :=
  if '0' ≤ c ∧ c ≤ '9' then some (c.toNat - '0'.toNat)
  else if 'a' ≤ c ∧ c ≤ 'f' then some (c.toNat - 'a'.toNat + 10)
  else if 'A' ≤ c ∧ c ≤ 'F' then some (c.toNat - 'A'.toNat + 10)
  else none

/-- Tail of a Python base-16 digit run: digits with single underscores allowed
only between digits. -/
def hexTail (acc : Nat) : List Char → Option Nat
  | [] => some acc
  | '_' :: rest =>
    match rest with
    | [] => none
    | c :: rest' =>
      match hexVal c with
      | none => none
      | some d => hexTail (acc * 16 + d) rest'
  | c :: rest =>
    match hexVal c with
    | none => none
    | some d => hexTail (acc * 16 + d) rest

/-- A Python base-16 digit run: nonempty, starts with a digit, single
underscores only between digits. -/
def parseHexBody (cs : List Char) : Option Nat :=
  match cs with
  | [] => none
  | c :: rest =>
    match hexVal c with
    | none => none
    | some d => hexTail d rest

/-- After a `0x`/`0X` prefix Python also allows one underscore before the
first digit. -/
def parseAfterHexMark (cs : List Char) : Option Nat :=
  match cs with
  | '_' :: rest => parseHexBody rest
  | _ => parseHexBody cs

/-- Unsigned part of a Python base-16 literal: optional `0x`/`0X` prefix then
a digit run. -/
def parseHexMagnitude (cs : List Char) : Option Nat :=
  match cs with
  | '0' :: x :: rest =>
    if x == 'x' || x == 'X' then parseAfterHexMark rest
    else parseHexBody ('0' :: x :: rest)
  | _ => parseHexBody cs

/-- Python `int(s, 16)` (modelled from Python's documented semantics for this
external builtin): surrounding whitespace, an optional sign, an optional
`0x`/`0X` prefix, then hex digits with single underscores between digits;
`none` models the `ValueError` raised otherwise. -/
def pyIntBase16 (s : String) : Option Int :=
  let cs := (s.data.dropWhile isPySpace).reverse.dropWhile isPySpace |>.reverse
  match cs with
  | '+' :: rest => (parseHexMagnitude rest).map Int.ofNat
  | '-' :: rest => (parseHexMagnitude rest).map (fun n => -(n : Int))
  | _ => (parseHexMagnitude cs).map Int.ofNat

/-! ## The placeholder expander (src/main.py lines 32-39) -/

/-- Python `"x" in s` applied to the two tokens. -/
def hasToken (s : String) : Bool :=
  strHas s "{user}" || strHas s "{username}"

mutual
/-- src/main.py `replace_placeholders(obj, member)`: strings get `{user}`
replaced by `member.mention` and then `{username}` by `member.name`; lists and
dict values are rewritten recursively (dict keys untouched); other scalars are
returned unchanged. -/
def replace_placeholders (obj : JSON) (member : Member) : JSON :=
  match obj with
  | .str s =>
    .str (pyReplace (pyReplace s "{user}" member.mention) "{username}" member.name)
  | .arr items => .arr (replace_placeholdersL items member)
  | .obj fields => .obj (replace_placeholdersO fields member)
  | .null => .null
  | .bool b => .bool b
  | .num n => .num n
/-- The list comprehension branch of `replace_placeholders`. -/
def replace_placeholdersL (items : JList) (member : Member) : JList :=
  match items with
  | .nil => .nil
  | .cons e tl => .cons (replace_placeholders e member) (replace_placeholdersL tl member)
/-- The dict comprehension branch of `replace_placeholders` (values only). -/
def replace_placeholdersO (fields : JObj) (member : Member) : JObj :=
  match fields with
  | .nil => .nil
  | .cons k v tl => .cons k (replace_placeholders v member) (replace_placeholdersO tl member)
end

/-- The string-leaf rewrite the spec describes: every occurrence of `{user}`
becomes the mention token, every occurrence of `{username}` the plain name. -/
def spec_subst (member : Member) (s : String) : String :=
  pyReplace (pyReplace s "{user}" member.mention) "{username}" member.name

mutual
/-- Generic structure-preserving map over string leaves, the shape the spec's
contract for the placeholder expander has: rewrite every string leaf with `f`,
keep every container and every other scalar as it is. -/
def mapStrings (f : String → String) : JSON → JSON
  | .str s => .str (f s)
  | .arr items => .arr (mapStringsL f items)
  | .obj fields => .obj (mapStringsO f fields)
  | .null => .null
  | .bool b => .bool b
  | .num n => .num n
/-- `mapStrings` on array elements. -/
def mapStringsL (f : String → String) : JList → JList
  | .nil => .nil
  | .cons e tl => .cons (mapStrings f e) (mapStringsL f tl)
/-- `mapStrings` on object values. -/
def mapStringsO (f : String → String) : JObj → JObj
  | .nil => .nil
  | .cons k v tl => .cons k (mapStrings f v) (mapStringsO f tl)
end

mutual
/-- No string leaf of the value contains either placeholder token. -/
def tokenFree : JSON → Bool
  | .str s => !hasToken s
  | .arr items => tokenFreeL items
  | .obj fields => tokenFreeO fields
  | .null => true
  | .bool _ => true
  | .num _ => true
/-- `tokenFree` on array elements. -/
def tokenFreeL : JList → Bool
  | .nil => true
  | .cons e tl => tokenFree e && tokenFreeL tl
/-- `tokenFree` on object values. -/
def tokenFreeO : JObj → Bool
  | .nil => true
  | .cons _ v tl => tokenFree v && tokenFreeO tl
end

mutual
/-- Frame condition relating an input value to an output value: identical
shape (arrays of the same length, objects with the same keys in the same
order), scalars equal, and a string leaf may differ only when it contains one
of the placeholder tokens (and must still be a string). -/
def frameOK : JSON → JSON → Bool
  | .null, .null => true
  | .bool b, .bool b' => b == b'
  | .num n, .num n' => n == n'
  | .str s, .str t => if hasToken s then true else s == t
  | .arr items, .arr items' => frameOKL items items'
  | .obj fields, .obj fields' => frameOKO fields fields'
  | _, _ => false
/-- `frameOK` pointwise on arrays. -/
def frameOKL : JList → JList → Bool
  | .nil, .nil => true
  | .cons e tl, .cons e' tl' => frameOK e e' && frameOKL tl tl'
  | _, _ => false
/-- `frameOK` pointwise on objects: same keys, related values. -/
def frameOKO : JObj → JObj → Bool
  | .nil, .nil => true
  | .cons k v tl, .cons k' v' tl' => k == k' && frameOK v v' && frameOKO tl tl'
  | _, _ => false
end

/-! ## The theme merger (src/main.py lines 41-61)

`apply_theme` re-reads the config store on entry; the store is therefore a
parameter here.  The callers run it inside `try`/`except`, so a Python
exception is modelled as `none`. -/

/-- Top-level shape of the persisted `config.json`: guild id → settings. -/
abbrev Store := JObj

/-- src/main.py `set_color` on one element of the `embeds` list, given that
the element is a dict: add `color` unless the key is already present. -/
def set_color_obj (primary : JSON) (e : JObj) : JObj :=
  if hasKey e "color" then e else setKey e "color" primary

/-- src/main.py `set_color(embed_dict)`: on a dict it adds the default color
when missing; on a non-dict element Python raises (`'color' not in e` /
item assignment), except that a string element containing `"color"` is
returned unchanged by the early `in` test. -/
def set_color (primary : JSON) : JSON → Option JSON
  | .obj e => some (.obj (set_color_obj primary e))
  | .str s => if strHas s "color" then some (.str s) else none
  | _ => none

/-- The list comprehension `[set_color(e) for e in data['embeds']]`: the first
exception aborts the whole handler. -/
def set_color_list (primary : JSON) : JList → Option JList
  | .nil => some .nil
  | .cons e tl =>
    match set_color primary e with
    | none => none
    | some e' => (set_color_list primary tl).map (JList.cons e')

/-- src/main.py `apply_theme(data, guild_id)` for a dict payload `data`.
Returns `none` when the Python code would raise (theme value or an embeds
element of an unexpected shape); iterating a non-list `embeds` value raises on
the first element, so only an empty string or empty dict survives it (as an
empty list of embeds). -/
def apply_theme (config : Store) (data : JObj) (guild_id : String) : Option JObj :=
  match getKey config guild_id with
  | none => some data
  | some entry =>
    match entry with
    | .obj settings =>
      match getKey settings "theme" with
      | none => some data
      | some themeVal =>
        match themeVal with
        | .obj theme =>
          match getKey theme "primary" with
          | none => some data
          | some primary =>
            if truthy primary then
              match getKey data "embeds" with
              | some (.arr es) =>
                (set_color_list primary es).map (fun es' => setKey data "embeds" (.arr es'))
              | some (.str s) =>
                if s == "" then some (setKey data "embeds" (.arr .nil)) else none
              | some (.obj .nil) => some (setKey data "embeds" (.arr .nil))
              | some _ => none
              | none =>
                if hasKey data "title" || hasKey data "description" || hasKey data "fields" then
                  some (set_color_obj primary data)
                else
                  some data
            else
              some data
        | _ => none
    | _ => none

/-! ## The command handlers (src/main.py lines 119-215) and member-join event
(lines 82-117)

Each handler is modelled as a pure function from the loaded store and its
arguments to the new store plus the externally visible behaviour (which reply
the invoking user gets, what is posted to the channel).  `json.loads` is an
external collaborator: a handler taking `Option JSON` receives `none` exactly
when parsing raised `json.JSONDecodeError`. -/

/-- Reply of the `/theme` command as the user sees it. -/
inductive ThemeResp where
  | updated (primary : Int) (secondary : Option Int)
  | invalidHex
  | saveFailed

/-- The persisted secondary color: `None` becomes JSON `null`. -/
def optNum : Option Int → JSON
  | none => .null
  | some n => .num n

/-- The dict literal `{'primary': p_int, 'secondary': s_int}` from
`theme_command`. -/
def themeEntry (pv : Int) (sv : Option Int) : JSON :=
  .obj (.cons "primary" (.num pv) (.cons "secondary" (optNum sv) .nil))

/-- The store mutation of `theme_command`: create the guild entry if absent,
then assign its `theme` key.  A non-dict guild entry would make the assignment
raise (caught by the generic handler, nothing saved). -/
def themeSave (config : Store) (gid : String) (pv : Int) (sv : Option Int) :
    Store × ThemeResp :=
  match getKey config gid with
  | none =>
    (setKey config gid (.obj (setKey .nil "theme" (themeEntry pv sv))), .updated pv sv)
  | some (.obj e) =>
    (setKey config gid (.obj (setKey e "theme" (themeEntry pv sv))), .updated pv sv)
  | some _ => (config, .saveFailed)

/-- src/main.py `theme_command(interaction, primary, secondary)`: parse both
hex strings (stripping hashes) before touching the store; a `ValueError`
answers with the validation message and leaves the store as it was;
a falsy (empty) secondary string is treated like an absent one. -/
def theme_command (config : Store) (gid : String) (primary : String)
    (secondary : Option String) : Store × ThemeResp :=
  match pyIntBase16 (strip_hash primary) with
  | none => (config, .invalidHex)
  | some pv =>
    match secondary with
    | none => themeSave config gid pv none
    | some t =>
      if t == "" then themeSave config gid pv none
      else
        match pyIntBase16 (strip_hash t) with
        | none => (config, .invalidHex)
        | some sv => themeSave config gid pv (some sv)

/-- Following the claim's words for C6, not the source: remove one leading
hash character, nothing else. -/
def removeLeadingHash (s : String) : String :=
  match s.data with
  | '#' :: rest => ⟨rest⟩
  | _ => s

/-- Reply of the `/embed` command as the user sees it. -/
inductive EmbedResp where
  | invalidJSONFormat
  | mustContain
  | posted
  | errorParsing

/-- Result of one `/embed` invocation: the store as left behind, the reply,
and the message posted to the invoking channel (content plus embed dicts), if
any. -/
structure EmbedOutcome where
  store : Store
  resp : EmbedResp
  sent : Option (Option JSON × JList)

/-- Keep a list of embed dicts only if every element is a dict. -/
def allObjs : JList → Option JList
  | .nil => some .nil
  | .cons (.obj e) tl => (allObjs tl).map (JList.cons (.obj e))
  | .cons _ _ => none

/-- The comprehension `[discord.Embed.from_dict(e) for e in x]` over the value
found under `embeds`: every element must be a dict (`from_dict` is modelled as
the identity on the payload); iterating a non-list raises on its first element,
so only an empty string or empty dict yields an (empty) result. -/
def fromDictList : JSON → Option JList
  | .arr es => allObjs es
  | .str s => if s == "" then some .nil else none
  | .obj .nil => some .nil
  | _ => none

/-- The embed list construction shared by `embed_command` (lines 170-173) and
`on_member_join` (lines 110-113): the list under `embeds` if that key exists,
else the payload itself when it looks embed-like, else no embeds. -/
def embedsOf (data : JObj) : Option JList :=
  match getKey data "embeds" with
  | some x => fromDictList x
  | none =>
    if hasKey data "title" || hasKey data "description" ||
        hasKey data "fields" || hasKey data "color" then
      some (.cons (.obj data) .nil)
    else
      some .nil

/-- src/main.py `embed_command(interaction, embed_json)`: `none` for the parse
result models `json.JSONDecodeError` ("Error: Invalid JSON format."); any
other exception inside the `try` (non-dict payload, bad theme or embed shapes)
is caught by the broad handler ("Error parsing data"); otherwise the payload
must be truthy in `content` or nonempty in embeds, and on success the message
is posted to the invoking channel with at most ten embeds.  The command never
saves the store. -/
def embed_command (config : Store) (gid : String) (parsed : Option JSON) :
    EmbedOutcome :=
  match parsed with
  | none => ⟨config, .invalidJSONFormat, none⟩
  | some (.obj kvs) =>
    match apply_theme config kvs gid with
    | none => ⟨config, .errorParsing, none⟩
    | some data =>
      match embedsOf data with
      | none => ⟨config, .errorParsing, none⟩
      | some embeds =>
        match truthyOpt (getKey data "content"), embeds with
        | false, .nil => ⟨config, .mustContain, none⟩
        | _, _ => ⟨config, .posted, some (getKey data "content", jtake 10 embeds)⟩
  | some _ => ⟨config, .errorParsing, none⟩

/-- Reply of the `/welcome` command as the user sees it. -/
inductive WelcomeResp where
  | invalidJSONFormat
  | invalidPayload
  | saved
  | internalError

/-- The `config[guild_id].update({...})` of `welcome_command`: assign the
three keys in the dict-literal order. -/
def updEntry (e : JObj) (channelId : Int) (data : JSON) (roleId : Option Int) : JObj :=
  setKey (setKey (setKey e "channel_id" (.num channelId)) "embed_data" data)
    "role_id" (optNum roleId)

/-- The store mutation of `welcome_command`; a non-dict guild entry would make
`.update` raise `AttributeError`, which this handler does not catch. -/
def welcomeSave (config : Store) (gid : String) (channelId : Int) (data : JSON)
    (roleId : Option Int) : Store × WelcomeResp :=
  match getKey config gid with
  | none => (setKey config gid (.obj (updEntry .nil channelId data roleId)), .saved)
  | some (.obj e) => (setKey config gid (.obj (updEntry e channelId data roleId)), .saved)
  | some _ => (config, .internalError)

/-- src/main.py `welcome_command(interaction, channel, embed_json, role)`:
`none` models a `json.JSONDecodeError`; a payload whose `content`, `embeds`
and `title` values are all absent or falsy is rejected ("Invalid JSON.");
otherwise the channel id, the payload, and the role id (or `null`) are
persisted under the guild.  A non-dict payload makes `.get` raise, which only
the framework-level handler answers. -/
def welcome_command (config : Store) (gid : String) (channelId : Int)
    (parsed : Option JSON) (roleId : Option Int) : Store × WelcomeResp :=
  match parsed with
  | none => (config, .invalidJSONFormat)
  | some (.obj data) =>
    if truthyOpt (getKey data "content") || truthyOpt (getKey data "embeds") ||
        truthyOpt (getKey data "title") then
      welcomeSave config gid channelId (.obj data) roleId
    else
      (config, .invalidPayload)
  | some _ => (config, .internalError)

/-- The guild as the member-join handler sees it: which role ids resolve via
`guild.get_role` and which channel ids via `guild.get_channel`. -/
structure JoinEnv where
  roleExists : Int → Bool
  channelExists : Int → Bool

/-- Externally visible effect of one member join: the role id an assignment
was attempted for (`add_roles` may still be forbidden — it is attempted), and
the message sent (channel id, content, at most ten embed dicts), if any. -/
structure JoinOutcome where
  roleAttempted : Option Int
  sent : Option (Int × Option JSON × JList)

/-- src/main.py `on_member_join(member)` (lines 82-117): no-op for an
unconfigured guild; a truthy `role_id` that resolves to a role gets an
assignment attempt; a truthy `channel_id` resolving to a channel together with
a truthy `embed_data` triggers theme application, placeholder expansion and a
send of the content plus at most ten embeds — every exception inside the send
block is swallowed (`sent = none`).  A non-dict guild entry or a non-integer
id falls through the lookups exactly as the Python attribute/dict machinery
does. -/
def on_member_join (config : Store) (gid : String) (member : Member)
    (env : JoinEnv) : JoinOutcome :=
  match getKey config gid with
  | none => ⟨none, none⟩
  | some (.obj settings) =>
    let ra : Option Int :=
      match getKey settings "role_id" with
      | some (.num r) => if r != 0 && env.roleExists r then some r else none
      | _ => none
    let snt : Option (Int × Option JSON × JList) :=
      if truthyOpt (getKey settings "channel_id") &&
          truthyOpt (getKey settings "embed_data") then
        match getKey settings "channel_id" with
        | some (.num ch) =>
          if env.channelExists ch then
            match getKey settings "embed_data" with
            | some (.obj kvs) =>
              match apply_theme config kvs gid with
              | none => none
              | some themed =>
                let data := replace_placeholdersO themed member
                match embedsOf data with
                | none => none
                | some embeds => some (ch, getKey data "content", jtake 10 embeds)
            | _ => none
          else none
        | _ => none
      else none
    ⟨ra, snt⟩
  | some _ => ⟨none, none⟩

/-! ## Lemmas about the string primitives -/

theorem containsSub_nil_pat (s : List Char) : containsSub [] s = true := by
  cases s <;> simp [containsSub, List.isPrefixOf]

theorem replaceAux_no_occ (old new : List Char) :
    ∀ (fuel : Nat) (s : List Char), containsSub old s = false →
      replaceAux old new fuel s = s := by
  intro fuel
  induction fuel with
  | zero => intro s _; rfl
  | succ n ih =>
    intro s h
    cases s with
    | nil => rfl
    | cons c rest =>
      simp only [containsSub, Bool.or_eq_false_iff] at h
      simp [replaceAux, h.1, ih rest h.2]

/-- Python `s.replace(old, new)` leaves `s` unchanged when `old` does not
occur in `s`. -/
theorem pyReplace_no_occ (s old new : String) (h : strHas s old = false) :
    pyReplace s old new = s := by
  unfold strHas at h
  unfold pyReplace
  cases hd : old.data with
  | nil =>
    rw [hd, containsSub_nil_pat] at h
    cases h
  | cons c cs =>
    rw [hd] at h
    show String.mk (replaceAux (c :: cs) new.data s.data.length s.data) = s
    rw [replaceAux_no_occ (c :: cs) new.data s.data.length s.data h]

/-- The spec-level string rewrite is the identity on token-free strings. -/
theorem spec_subst_id (m : Member) (s : String) (h : hasToken s = false) :
    spec_subst m s = s := by
  unfold hasToken at h
  simp only [Bool.or_eq_false_iff] at h
  unfold spec_subst
  rw [pyReplace_no_occ s "{user}" m.mention h.1,
    pyReplace_no_occ s "{username}" m.name h.2]

/-! ## Lemmas about the placeholder expander -/

mutual
/-- The code's recursive traversal is exactly the generic string-leaf map with
the spec's substitution. -/
theorem rp_is_mapStrings (v : JSON) (m : Member) :
    replace_placeholders v m = mapStrings (spec_subst m) v := by
  cases v with
  | null => rfl
  | bool b => rfl
  | num n => rfl
  | str s => rfl
  | arr items =>
    show JSON.arr (replace_placeholdersL items m) = .arr (mapStringsL (spec_subst m) items)
    rw [rp_is_mapStringsL items m]
  | obj fields =>
    show JSON.obj (replace_placeholdersO fields m) = .obj (mapStringsO (spec_subst m) fields)
    rw [rp_is_mapStringsO fields m]
theorem rp_is_mapStringsL (items : JList) (m : Member) :
    replace_placeholdersL items m = mapStringsL (spec_subst m) items := by
  cases items with
  | nil => rfl
  | cons e tl =>
    show JList.cons (replace_placeholders e m) (replace_placeholdersL tl m)
        = .cons (mapStrings (spec_subst m) e) (mapStringsL (spec_subst m) tl)
    rw [rp_is_mapStrings e m, rp_is_mapStringsL tl m]
theorem rp_is_mapStringsO (fields : JObj) (m : Member) :
    replace_placeholdersO fields m = mapStringsO (spec_subst m) fields := by
  cases fields with
  | nil => rfl
  | cons k v tl =>
    show JObj.cons k (replace_placeholders v m) (replace_placeholdersO tl m)
        = .cons k (mapStrings (spec_subst m) v) (mapStringsO (spec_subst m) tl)
    rw [rp_is_mapStrings v m, rp_is_mapStringsO tl m]
end

mutual
/-- Frame property of the expander on a single value. -/
theorem rp_frame (v : JSON) (m : Member) :
    frameOK v (replace_placeholders v m) = true := by
  cases v with
  | null => rfl
  | bool b => exact beq_self_eq_true b
  | num n => exact beq_self_eq_true n
  | str s =>
    show (if hasToken s then true else s == spec_subst m s) = true
    cases h : hasToken s with
    | true => rfl
    | false => rw [if_neg (by simp [h]), spec_subst_id m s h]; exact beq_self_eq_true s
  | arr items => exact rp_frameL items m
  | obj fields => exact rp_frameO fields m
theorem rp_frameL (items : JList) (m : Member) :
    frameOKL items (replace_placeholdersL items m) = true := by
  cases items with
  | nil => rfl
  | cons e tl =>
    show (frameOK e (replace_placeholders e m) && frameOKL tl (replace_placeholdersL tl m)) = true
    rw [rp_frame e m, rp_frameL tl m]
    rfl
theorem rp_frameO (fields : JObj) (m : Member) :
    frameOKO fields (replace_placeholdersO fields m) = true := by
  cases fields with
  | nil => rfl
  | cons k v tl =>
    show (k == k && frameOK v (replace_placeholders v m)
        && frameOKO tl (replace_placeholdersO tl m)) = true
    rw [beq_self_eq_true k, rp_frame v m, rp_frameO tl m]
    rfl
end

mutual
/-- The expander is the identity on token-free values. -/
theorem rp_id_of_tokenFree (v : JSON) (m : Member) (h : tokenFree v = true) :
    replace_placeholders v m = v := by
  cases v with
  | null => rfl
  | bool b => rfl
  | num n => rfl
  | str s =>
    show JSON.str (spec_subst m s) = .str s
    have hs : hasToken s = false := by
      have : (!hasToken s) = true := h
      simp only [Bool.not_eq_eq_eq_not, Bool.not_true] at this
      exact this
    rw [spec_subst_id m s hs]
  | arr items =>
    show JSON.arr (replace_placeholdersL items m) = .arr items
    rw [rp_idL_of_tokenFree items m h]
  | obj fields =>
    show JSON.obj (replace_placeholdersO fields m) = .obj fields
    rw [rp_idO_of_tokenFree fields m h]
theorem rp_idL_of_tokenFree (items : JList) (m : Member) (h : tokenFreeL items = true) :
    replace_placeholdersL items m = items := by
  cases items with
  | nil => rfl
  | cons e tl =>
    have h' : tokenFree e = true ∧ tokenFreeL tl = true := by
      have : (tokenFree e && tokenFreeL tl) = true := h
      exact Bool.and_eq_true_iff.mp this
    show JList.cons (replace_placeholders e m) (replace_placeholdersL tl m) = .cons e tl
    rw [rp_id_of_tokenFree e m h'.1, rp_idL_of_tokenFree tl m h'.2]
theorem rp_idO_of_tokenFree (fields : JObj) (m : Member) (h : tokenFreeO fields = true) :
    replace_placeholdersO fields m = fields := by
  cases fields with
  | nil => rfl
  | cons k v tl =>
    have h' : tokenFree v = true ∧ tokenFreeO tl = true := by
      have : (tokenFree v && tokenFreeO tl) = true := h
      exact Bool.and_eq_true_iff.mp this
    show JObj.cons k (replace_placeholders v m) (replace_placeholdersO tl m) = .cons k v tl
    rw [rp_id_of_tokenFree v m h'.1, rp_idO_of_tokenFree tl m h'.2]
end

/-- Applying `set_color` elementwise to a list of dicts never raises and works
through `set_color_obj`. -/
theorem set_color_list_objs (p : JSON) (os : List JObj) :
    set_color_list p (objList os) = some (objList (os.map (set_color_obj p))) := by
  induction os with
  | nil => rfl
  | cons e tl ih => simp [objList, set_color_list, set_color, ih, List.map]

/-! ## Concrete fixtures used by witnesses and counterexamples -/

/-- Theme dict with primary 0 (as `/theme` with `#0` would store it). -/
def theme0 : JObj := .cons "primary" (.num 0) (.cons "secondary" .null .nil)

/-- Guild settings holding only `theme0`. -/
def settings0 : JObj := .cons "theme" (.obj theme0) .nil

/-- Store for guild `"1"` with primary color 0. -/
def storePrimary0 : Store := .cons "1" (.obj settings0) .nil

/-- Theme dict with primary 255. -/
def theme255 : JObj := .cons "primary" (.num 255) (.cons "secondary" .null .nil)

/-- Guild settings holding only `theme255`. -/
def settings255 : JObj := .cons "theme" (.obj theme255) .nil

/-- Store for guild `"1"` with primary color 255. -/
def storePrimary255 : Store := .cons "1" (.obj settings255) .nil

/-- The embed dict `{"title": "x"}` (no color). -/
def titledEmbed : JObj := .cons "title" (.str "x") .nil

/-- The payload `{"embeds": [{"title": "x"}]}`. -/
def payloadTitled : JObj := .cons "embeds" (.arr (.cons (.obj titledEmbed) .nil)) .nil

/-- The store `theme primary:#FF5733` actually produces for guild `"1"` from
an empty store. -/
def ff5733Store : Store :=
  .cons "1" (.obj (.cons "theme"
    (.obj (.cons "primary" (.num 16734003) (.cons "secondary" .null .nil))) .nil)) .nil

/-- Welcome configuration of claim C9: channel 42, `{"content": "hi {user}"}`,
no role. -/
def welcomeStore42 : Store :=
  .cons "7" (.obj (.cons "channel_id" (.num 42)
    (.cons "embed_data" (.obj (.cons "content" (.str "hi {user}") .nil))
      (.cons "role_id" .null .nil)))) .nil

/-! ## The claims -/

/-- Claim C1 (confirmed): for every JSON-like value and every member record,
the placeholder expander returns the structurally identical value obtained by
rewriting every string leaf with the two literal substitutions
(`⦃user⦄` → mention token, then `⦃username⦄` → plain name, as Python
`str.replace` performs them) and leaving every non-string, non-container
scalar unchanged: it coincides with the generic string-leaf map `mapStrings`
applied to the spec's substitution `spec_subst`. -/
theorem claim_C1 (v : JSON) (m : Member) :
    replace_placeholders v m = mapStrings (spec_subst m) v :=
  rp_is_mapStrings v m

/-- Claim C2 (confirmed): expanding placeholders preserves the structural
shape of the value — every array keeps its length, every object keeps exactly
its keys in order, every scalar is returned equal — and only string leaves
containing one of the literal tokens may change (remaining strings); all
other leaves are returned equal to their input.  All of this is what
`frameOK` checks pointwise. -/
theorem claim_C2 (v : JSON) (m : Member) :
    frameOK v (replace_placeholders v m) = true :=
  rp_frame v m

/-- Claim C3 (confirmed): if no string leaf of the expanded value still
contains a placeholder token, expanding a second time returns it unchanged. -/
theorem claim_C3 (v : JSON) (m : Member)
    (h : tokenFree (replace_placeholders v m) = true) :
    replace_placeholders (replace_placeholders v m) m = replace_placeholders v m :=
  rp_id_of_tokenFree (replace_placeholders v m) m h

/-- Witness for claim C3 at a concrete input. -/
theorem claim_C3_witness :
    tokenFree (replace_placeholders (.str "hi {user}") ⟨"<@1>", "u"⟩) = true ∧
    replace_placeholders (replace_placeholders (.str "hi {user}") ⟨"<@1>", "u"⟩) ⟨"<@1>", "u"⟩
      = replace_placeholders (.str "hi {user}") ⟨"<@1>", "u"⟩ :=
  ⟨rfl, claim_C3 (.str "hi {user}") ⟨"<@1>", "u"⟩ rfl⟩

/-- Claim C4 as stated is false on the code: for guild `"1"` the stored theme
is present and its `primary` entry is present (value 0), the payload's only
embed has no `color` key, and yet `apply_theme` returns the payload unchanged
instead of setting `color` to the stored primary color.  The configured-check
is a truthiness test, so primary 0 short-circuits it. -/
theorem claim_C4_counterexample :
    apply_theme storePrimary0 payloadTitled "1" = some payloadTitled ∧
    getKey storePrimary0 "1" = some (.obj settings0) ∧
    getKey settings0 "theme" = some (.obj theme0) ∧
    getKey theme0 "primary" = some (.num 0) ∧
    hasKey titledEmbed "color" = false :=
  ⟨rfl, rfl, rfl, rfl, rfl⟩

/-- Claim C4 (corrected): the theme merger returns the payload unchanged when
the guild has no entry, no `theme` key, no `primary` entry, or a primary
color that is falsy (such as 0 or null); otherwise, for a truthy primary, it
sets the `color` field of each dict in the list under the payload's `embeds`
key — or of the payload itself when it has a `title`/`description`/`fields`
key and no `embeds` key — exactly when that dict does not already define
`color`, and an already-present `color` value is always left unchanged. -/
theorem claim_C4 (config : Store) (data : JObj) (gid : String) :
    (getKey config gid = none → apply_theme config data gid = some data)
    ∧ (∀ settings, getKey config gid = some (.obj settings) →
        getKey settings "theme" = none → apply_theme config data gid = some data)
    ∧ (∀ settings theme, getKey config gid = some (.obj settings) →
        getKey settings "theme" = some (.obj theme) →
        getKey theme "primary" = none → apply_theme config data gid = some data)
    ∧ (∀ settings theme p, getKey config gid = some (.obj settings) →
        getKey settings "theme" = some (.obj theme) →
        getKey theme "primary" = some p → truthy p = false →
        apply_theme config data gid = some data)
    ∧ (∀ settings theme p os, getKey config gid = some (.obj settings) →
        getKey settings "theme" = some (.obj theme) →
        getKey theme "primary" = some p → truthy p = true →
        getKey data "embeds" = some (.arr (objList os)) →
        apply_theme config data gid
          = some (setKey data "embeds" (.arr (objList (os.map (set_color_obj p))))))
    ∧ (∀ settings theme p, getKey config gid = some (.obj settings) →
        getKey settings "theme" = some (.obj theme) →
        getKey theme "primary" = some p → truthy p = true →
        getKey data "embeds" = none →
        (hasKey data "title" || hasKey data "description" || hasKey data "fields") = true →
        apply_theme config data gid = some (set_color_obj p data))
    ∧ (∀ settings theme p, getKey config gid = some (.obj settings) →
        getKey settings "theme" = some (.obj theme) →
        getKey theme "primary" = some p → truthy p = true →
        getKey data "embeds" = none →
        (hasKey data "title" || hasKey data "description" || hasKey data "fields") = false →
        apply_theme config data gid = some data)
    ∧ (∀ p e, hasKey e "color" = true → set_color_obj p e = e) := by
  refine ⟨?_, ?_, ?_, ?_, ?_, ?_, ?_, ?_⟩
  · intro h; simp [apply_theme, h]
  · intro settings h1 h2; simp [apply_theme, h1, h2]
  · intro settings theme h1 h2 h3; simp [apply_theme, h1, h2, h3]
  · intro settings theme p h1 h2 h3 h4; simp [apply_theme, h1, h2, h3, h4]
  · intro settings theme p os h1 h2 h3 h4 h5
    simp [apply_theme, h1, h2, h3, h4, h5, set_color_list_objs]
  · intro settings theme p h1 h2 h3 h4 h5 h6
    simp [apply_theme, h1, h2, h3, h4, h5, h6]
  · intro settings theme p h1 h2 h3 h4 h5 h6
    simp [apply_theme, h1, h2, h3, h4, h5, h6]
  · intro p e h; simp [set_color_obj, h]

/-- Witness for claim C4 at the spec's own scenario: primary 255, payload
`⦃"embeds": [⦃"title": "x"⦄]⦄` gets `color: 255` injected. -/
theorem claim_C4_witness :
    apply_theme storePrimary255 payloadTitled "1"
      = some (setKey payloadTitled "embeds"
          (.arr (objList ([titledEmbed].map (set_color_obj (.num 255)))))) :=
  (claim_C4 storePrimary255 payloadTitled "1").2.2.2.2.1 settings255 theme255
    (.num 255) [titledEmbed] rfl rfl rfl rfl rfl

/-- Claim C5 as stated is false on the code: `theme primary:#FF5733` for
guild `"1"` on the empty store persists primary 16734003 (the value of
0xFF5733), not 16733491 (which is 0xFF5533), so the resulting store differs
from the claimed one in the primary color. -/
theorem claim_C5_counterexample :
    theme_command .nil "1" "#FF5733" none = (ff5733Store, .updated 16734003 none) ∧
    pyIntBase16 (strip_hash "#FF5733") = some 16734003 ∧
    (16734003 : Int) ≠ 16733491 :=
  ⟨rfl, rfl, by decide⟩

/-- Claim C5 (corrected): starting from an empty store, `theme
primary:#FF5733` with no secondary for guild `"1"` makes the store
`⦃"1": ⦃"theme": ⦃"primary": 16734003, "secondary": null⦄⦄⦄` and echoes the
confirmation. -/
theorem claim_C5 :
    theme_command .nil "1" "#FF5733" none = (ff5733Store, .updated 16734003 none) :=
  rfl

/-- Claim C6 as stated is false on the code: the input `"FF#"` has no leading
hash, so after removing a leading hash the remainder `"FF#"` is not a valid
base-16 literal and the claim demands a validation error; but the code strips
trailing hashes too (`str.strip('#')`), parses 255, and succeeds. -/
theorem claim_C6_counterexample :
    (theme_command .nil "1" "FF#" none).2 = .updated 255 none ∧
    pyIntBase16 (removeLeadingHash "FF#") = none :=
  ⟨rfl, rfl⟩

/-- Claim C6 (corrected): the theme command validates each supplied hex-color
string by stripping all leading and trailing hash characters (Python
`str.strip('#')`) and parsing the remainder with `int(_, 16)`; exactly the
inputs whose stripped remainder parses succeed — with an empty (falsy)
secondary treated as absent — persisting the parsed primary and secondary
(or null) through `themeSave`; every other input yields the user-visible
validation error with the store left unchanged. -/
theorem claim_C6 (config : Store) (gid primary : String) (secondary : Option String) :
    (pyIntBase16 (strip_hash primary) = none →
      theme_command config gid primary secondary = (config, .invalidHex))
    ∧ (∀ pv, pyIntBase16 (strip_hash primary) = some pv →
        (secondary = none ∨ secondary = some "") →
        theme_command config gid primary secondary = themeSave config gid pv none)
    ∧ (∀ pv t, pyIntBase16 (strip_hash primary) = some pv → secondary = some t →
        (t == "") = false → pyIntBase16 (strip_hash t) = none →
        theme_command config gid primary secondary = (config, .invalidHex))
    ∧ (∀ pv t sv, pyIntBase16 (strip_hash primary) = some pv → secondary = some t →
        (t == "") = false → pyIntBase16 (strip_hash t) = some sv →
        theme_command config gid primary secondary = themeSave config gid pv (some sv))
    ∧ (∀ pv sv, getKey config gid = none →
        themeSave config gid pv sv
          = (setKey config gid (.obj (setKey .nil "theme" (themeEntry pv sv))),
             .updated pv sv))
    ∧ (∀ pv sv e, getKey config gid = some (.obj e) →
        themeSave config gid pv sv
          = (setKey config gid (.obj (setKey e "theme" (themeEntry pv sv))),
             .updated pv sv)) := by
  refine ⟨?_, ?_, ?_, ?_, ?_, ?_⟩
  · intro h; simp [theme_command, h]
  · intro pv h1 h2
    rcases h2 with h2 | h2 <;> subst h2 <;> simp [theme_command, h1]
  · intro pv t h1 h2 h3 h4; subst h2; simp [theme_command, h1, h3, h4]
  · intro pv t sv h1 h2 h3 h4; subst h2; simp [theme_command, h1, h3, h4]
  · intro pv sv h; simp [themeSave, h]
  · intro pv sv e h; simp [themeSave, h]

/-- Witness for claim C6: a parsed primary with an empty secondary saves. -/
theorem claim_C6_witness :
    theme_command .nil "1" "#0F" (some "") = themeSave .nil "1" 15 none :=
  (claim_C6 .nil "1" "#0F" (some "")).2.1 15 rfl (Or.inr rfl)

/-- Claim C7 (confirmed): whenever `json.loads` fails on the embed command's
input (for example on `"\x7bnot json"`), the user gets the invalid-JSON-format
error, nothing is sent to the channel, and the store is returned untouched. -/
theorem claim_C7 (config : Store) (gid : String) :
    embed_command config gid none = ⟨config, .invalidJSONFormat, none⟩ :=
  rfl

/-- Claim C8 as stated is false on the code: the parsed object
`⦃"content": ""⦄` contains the key `content`, so the claim demands that the
welcome configuration be persisted; but the command tests truthiness, the
empty string is falsy, and the payload is rejected with the validation error,
leaving the store empty. -/
theorem claim_C8_counterexample :
    welcome_command .nil "1" 42 (some (.obj (.cons "content" (.str "") .nil))) none
        = (.nil, .invalidPayload) ∧
    hasKey (.cons "content" (.str "") .nil) "content" = true :=
  ⟨rfl, rfl⟩

/-- Claim C8 (corrected): for a JSON object parsed by the welcome command, if
at least one of the keys `content`, `embeds`, `title` has a truthy value the
command persists the channel id, the payload and the optional role id (null
when no role is given) into the guild's entry; when all three are absent or
falsy it responds with the validation error and leaves the store unchanged. -/
theorem claim_C8 (config : Store) (gid : String) (channelId : Int) (data : JObj)
    (roleId : Option Int) :
    ((truthyOpt (getKey data "content") || truthyOpt (getKey data "embeds") ||
        truthyOpt (getKey data "title")) = false →
      welcome_command config gid channelId (some (.obj data)) roleId
        = (config, .invalidPayload))
    ∧ ((truthyOpt (getKey data "content") || truthyOpt (getKey data "embeds") ||
        truthyOpt (getKey data "title")) = true →
      welcome_command config gid channelId (some (.obj data)) roleId
        = welcomeSave config gid channelId (.obj data) roleId)
    ∧ (getKey config gid = none →
        welcomeSave config gid channelId (.obj data) roleId
          = (setKey config gid (.obj (updEntry .nil channelId (.obj data) roleId)),
             .saved))
    ∧ (∀ e, getKey config gid = some (.obj e) →
        welcomeSave config gid channelId (.obj data) roleId
          = (setKey config gid (.obj (updEntry e channelId (.obj data) roleId)),
             .saved)) := by
  refine ⟨?_, ?_, ?_, ?_⟩
  · intro h; simp [welcome_command, h]
  · intro h; simp [welcome_command, h]
  · intro h; simp [welcomeSave, h]
  · intro e h; simp [welcomeSave, h]

/-- Witness for claim C8: a truthy `content` persists channel 42 and the
payload with a null role. -/
theorem claim_C8_witness :
    welcome_command .nil "1" 42 (some (.obj (.cons "content" (.str "hi") .nil))) none
      = welcomeSave .nil "1" 42 (.obj (.cons "content" (.str "hi") .nil)) none :=
  (claim_C8 .nil "1" 42 (.cons "content" (.str "hi") .nil) none).2.1 rfl

/-- Claim C9 (confirmed): with welcome configuration channel 42, payload
`⦃"content": "hi ⦃user⦄"⦄` and a null role, a member with mention `<@99>`
joining guild `"7"` makes channel 42 receive content `"hi <@99>"` with no
embeds, and no role assignment is attempted. -/
theorem claim_C9 :
    on_member_join welcomeStore42 "7" ⟨"<@99>", "NewUser"⟩ ⟨fun _ => true, fun c => c == 42⟩
      = ⟨none, some (42, some (.str "hi <@99>"), .nil)⟩ :=
  rfl

/-- Claim C10 (confirmed): a stored theme whose `primary` value is the
integer 0 makes the theme merger return every payload unchanged — the
configured-check `if not primary_color` is a truthiness test, so 0 behaves
exactly like an unconfigured primary color. -/
theorem claim_C10 (config : Store) (gid : String) (settings theme data : JObj)
    (h1 : getKey config gid = some (.obj settings))
    (h2 : getKey settings "theme" = some (.obj theme))
    (h3 : getKey theme "primary" = some (.num 0)) :
    apply_theme config data gid = some data := by
  simp [apply_theme, h1, h2, h3, truthy]

/-- Witness for claim C10 at the concrete primary-0 store. -/
theorem claim_C10_witness :
    apply_theme storePrimary0 payloadTitled "1" = some payloadTitled :=
  claim_C10 storePrimary0 "1" settings0 theme0 payloadTitled rfl rfl rfl
